import Mathlib

/-!
Shallow embedding of the order pricing & discount-eligibility engine of the
driedit backend (src/backend/routes/coupon_routes.py,
src/backend/routes/shipping_tier_routes.py, src/backend/routes/order_routes.py,
src/backend/models.py).

Conventions of the embedding:
* Python floats holding currency amounts, percentages and timestamps are
  modelled as rationals (ℚ); `datetime` values are modelled as UTC timestamps
  on the rational line, so timezone normalisation is already applied.
* MongoDB collections are modelled as Lean lists passed explicitly; `find_one`
  is `List.find?` in list order, `update_one` updates the first match.
* Python `Optional` fields are `Option`; Python truthiness of a number is
  the test `≠ 0`, of an optional the test `isSome` plus truthiness of the
  payload, exactly where the source uses a bare `if x`.
* `HTTPException` error returns are modelled with `Except`, one error
  constructor per distinct `raise` site that the claims touch.
-/

namespace Driedit

/-- Python `str.upper()` (ASCII suffices for coupon codes): uppercase every
character of the string. -/
def pyUpper (s : String) : String := ⟨s.data.map Char.toUpper⟩

/-- Python `str.strip()`: drop leading and trailing whitespace. -/
def pyStrip (s : String) : String :=
  ⟨((s.data.dropWhile Char.isWhitespace).reverse.dropWhile
      Char.isWhitespace).reverse⟩

/-- Python `round` to an integer: nearest integer, ties to the even one. -/
def roundHalfEven (q : ℚ) : ℤ :=
  let n := ⌊q⌋
  let f := q - (n : ℚ)
  if f < 1/2 then n
  else if 1/2 < f then n + 1
  else if n % 2 = 0 then n
  else n + 1

/-- Python `round(x, 2)` on an idealised (rational) float. -/
def round2 (q : ℚ) : ℚ := (roundHalfEven (q * 100) : ℚ) / 100

/-- models.py `CouponType`. -/
inductive CouponType
  | percentage
  | fixed
deriving DecidableEq

/-- models.py `Coupon` document, restricted to the fields the engine reads.
`expires_at` is a UTC timestamp on the rational line (see module header). -/
structure Coupon where
  coupon_id : String
  code : String
  coupon_type : CouponType
  discount_value : ℚ
  min_order_value : ℚ
  max_discount : Option ℚ
  usage_limit : Option ℤ
  used_count : ℤ
  one_time_per_user : Bool
  auto_apply : Bool
  is_active : Bool
  expires_at : Option ℚ
deriving DecidableEq

/-- models.py `CouponUsage` document, restricted to the keys the eligibility
check reads (`db.coupon_usage.find_one` queries only these two keys). -/
structure UsageRecord where
  coupon_id : String
  user_id : String
deriving DecidableEq

/-- coupon_routes.py `calculate_discount`. -/
def calculate_discount (coupon : Coupon) (subtotal : ℚ) : ℚ :=
  let discount_amount :=
    if coupon.coupon_type = CouponType.percentage then
      let raw := subtotal * coupon.discount_value / 100
      match coupon.max_discount with
      | some m => if m ≠ 0 ∧ raw > m then m else raw
      | none => raw
    else
      min coupon.discount_value subtotal
  round2 discount_amount

/-- The discount calculator exactly as claim C6 words it: the `max_discount`
cap applies whenever `max_discount` is set (present), the amount is
`min(discount_value, subtotal)` for FIXED coupons, and the result is rounded
to 2 decimal places. -/
def calculate_discount_claimed (coupon : Coupon) (subtotal : ℚ) : ℚ :=
  let discount_amount :=
    if coupon.coupon_type = CouponType.percentage then
      let raw := subtotal * coupon.discount_value / 100
      match coupon.max_discount with
      | some m => if raw > m then m else raw
      | none => raw
    else
      min coupon.discount_value subtotal
  round2 discount_amount

/-- The failure reasons of `check_coupon_eligibility`, one constructor per
`return False, ...` site; `minOrderNotMet` carries the minimum surfaced in
the source's message string. -/
inductive EligFail
  | notActive
  | expired
  | usageLimitReached
  | alreadyUsed
  | minOrderNotMet (minimum : ℚ)
deriving DecidableEq

/-- coupon_routes.py `check_coupon_eligibility`; `none` is eligible,
`some r` is `(False, message r)`.  `usage` is the `db.coupon_usage`
collection and `now` the current UTC time. -/
def check_coupon_eligibility (usage : List UsageRecord) (now : ℚ)
    (coupon : Coupon) (user_id : String) (subtotal : ℚ) : Option EligFail :=
  if coupon.is_active = false then some .notActive
  else if (match coupon.expires_at with
           | some exp => decide (now > exp)
           | none => false) = true then some .expired
  else if (match coupon.usage_limit with
           | some l => decide (l ≠ 0) && decide (coupon.used_count ≥ l)
           | none => false) = true then some .usageLimitReached
  else if (coupon.one_time_per_user &&
           usage.any (fun u =>
             decide (u.coupon_id = coupon.coupon_id) &&
             decide (u.user_id = user_id))) = true then some .alreadyUsed
  else if subtotal < coupon.min_order_value then
    some (.minOrderNotMet coupon.min_order_value)
  else none

/-- The eligibility check exactly as claim C8 words it: identical five checks
in the same order, except that check 3 fires whenever `usage_limit` is set
(present), with no exemption for a zero limit. -/
def check_coupon_eligibility_claimed (usage : List UsageRecord) (now : ℚ)
    (coupon : Coupon) (user_id : String) (subtotal : ℚ) : Option EligFail :=
  if coupon.is_active = false then some .notActive
  else if (match coupon.expires_at with
           | some exp => decide (now > exp)
           | none => false) = true then some .expired
  else if (match coupon.usage_limit with
           | some l => decide (coupon.used_count ≥ l)
           | none => false) = true then some .usageLimitReached
  else if (coupon.one_time_per_user &&
           usage.any (fun u =>
             decide (u.coupon_id = coupon.coupon_id) &&
             decide (u.user_id = user_id))) = true then some .alreadyUsed
  else if subtotal < coupon.min_order_value then
    some (.minOrderNotMet coupon.min_order_value)
  else none

/-- The `eligible` flag as the source consumes it: the boolean first component of the
`(is_eligible, error_message)` pair. -/
def eligibleB (usage : List UsageRecord) (now : ℚ) (coupon : Coupon)
    (user_id : String) (subtotal : ℚ) : Bool :=
  (check_coupon_eligibility usage now coupon user_id subtotal).isNone

/-- The candidate list of `get_best_auto_coupon`: the Mongo query
`{is_active: True, auto_apply: True, min_order_value: {$lte: subtotal}}`
over the `coupons` collection, in collection order. -/
def auto_candidates (coupons : List Coupon) (subtotal : ℚ) : List Coupon :=
  coupons.filter (fun c =>
    c.is_active && c.auto_apply && decide (c.min_order_value ≤ subtotal))

/-- The `for coupon in coupons` loop of `get_best_auto_coupon`, carrying the
`(best_coupon, best_discount)` accumulator. -/
def bestAutoLoop (usage : List UsageRecord) (now : ℚ) (user_id : String)
    (subtotal : ℚ) : List Coupon → Option Coupon × ℚ → Option Coupon × ℚ
  | [], acc => acc
  | c :: rest, acc =>
    if eligibleB usage now c user_id subtotal then
      let discount := calculate_discount c subtotal
      if discount > acc.2 then
        bestAutoLoop usage now user_id subtotal rest (some c, discount)
      else
        bestAutoLoop usage now user_id subtotal rest acc
    else
      bestAutoLoop usage now user_id subtotal rest acc

/-- coupon_routes.py `get_best_auto_coupon` (route `/auto-apply`), returning
the `best_coupon` of the response (`none` models the `{"coupon": None}`
responses). -/
def get_best_auto_coupon (coupons : List Coupon) (usage : List UsageRecord)
    (now : ℚ) (user_id : String) (subtotal : ℚ) : Option Coupon :=
  if subtotal ≤ 0 then none
  else
    (bestAutoLoop usage now user_id subtotal
      (auto_candidates coupons subtotal) (none, 0)).1

/-- models.py `ShippingTier` document. -/
structure Tier where
  tier_id : String
  min_amount : ℚ
  max_amount : Option ℚ
  shipping_charge : ℚ
  is_active : Bool
deriving DecidableEq

/-- The per-existing-tier overlap test in the loop body of
shipping_tier_routes.py `validate_tier_ranges`: Case 1 (new tier starts
within existing tier) or Case 2 (new tier ends within existing tier) or
Case 3 (new tier completely contains existing tier). -/
def tierPairConflict (new_min : ℚ) (new_max : Option ℚ)
    (tier_min : ℚ) (tier_max : Option ℚ) : Bool :=
  (match tier_max with
   | none => decide (new_min ≥ tier_min)
   | some tm => decide (tier_min ≤ new_min) && decide (new_min ≤ tm)) ||
  (match new_max with
   | some nm =>
     (match tier_max with
      | none => decide (nm ≥ tier_min)
      | some tm => decide (tier_min ≤ nm) && decide (nm ≤ tm))
   | none => false) ||
  (match new_max with
   | none => decide (tier_min ≥ new_min)
   | some nm =>
     (match tier_max with
      | some tm => decide (new_min ≤ tier_min) && decide (nm ≥ tm)
      | none => false))

/-- shipping_tier_routes.py `validate_tier_ranges`: scans the active tiers
other than `exclude_tier_id` and returns the first conflicting tier
(the source returns its formatted message; the conflicting tier determines
that message). `none` means valid. -/
def validate_tier_ranges (tiers : List Tier) (new_min : ℚ)
    (new_max : Option ℚ) (exclude_tier_id : Option String) : Option Tier :=
  (tiers.filter (fun t =>
      t.is_active &&
      (match exclude_tier_id with
       | some e => decide (t.tier_id ≠ e)
       | none => true))).find?
    (fun t => tierPairConflict new_min new_max t.min_amount t.max_amount)

/-- The reference overlap relation of the spec: ranges `[a_min, a_max]` and
`[b_min, b_max]` with an absent max treated as +∞ overlap iff
`a_min ≤ b_max` and `b_min ≤ a_max`. -/
def rangesOverlapB (a_min : ℚ) (a_max : Option ℚ)
    (b_min : ℚ) (b_max : Option ℚ) : Bool :=
  (match b_max with
   | some bm => decide (a_min ≤ bm)
   | none => true) &&
  (match a_max with
   | some am => decide (b_min ≤ am)
   | none => true)

/-- The tier-match condition of the Mongo lookup used by both
`calculate_shipping` and `create_order`:
`{is_active: True, min_amount: {$lte: s}, $or: [{max_amount: {$gte: s}}, {max_amount: None}]}`. -/
def tierMatches (t : Tier) (amount : ℚ) : Bool :=
  t.is_active && decide (t.min_amount ≤ amount) &&
  (match t.max_amount with
   | some m => decide (amount ≤ m)
   | none => true)

/-- The `db.shipping_tiers.find_one` lookup shared by `calculate_shipping`
and `create_order`. -/
def find_shipping_tier (tiers : List Tier) (amount : ℚ) : Option Tier :=
  tiers.find? (fun t => tierMatches t amount)

/-- Result of shipping_tier_routes.py `calculate_shipping`, restricted to
the response keys the claims touch. -/
structure ShipCalcResult where
  subtotal : ℚ
  shipping_charge : ℚ
  tier_matched : Bool
deriving DecidableEq

/-- The one `raise` site of `calculate_shipping`. -/
inductive ShipError
  | negativeSubtotal
deriving DecidableEq

/-- shipping_tier_routes.py `calculate_shipping` (route `/calculate`). -/
def calculate_shipping (tiers : List Tier) (subtotal : ℚ) :
    Except ShipError ShipCalcResult :=
  if subtotal < 0 then .error .negativeSubtotal
  else
    match find_shipping_tier tiers subtotal with
    | none => .ok ⟨subtotal, 0, false⟩
    | some t => .ok ⟨subtotal, t.shipping_charge, true⟩

/-- Mongo `update_one`: apply `f` to the first element satisfying `p`. -/
def updateFirst {α : Type} (p : α → Bool) (f : α → α) : List α → List α
  | [] => []
  | x :: rest => if p x then f x :: rest else x :: updateFirst p f rest

/-- models.py `ShippingTierCreate`. -/
structure TierCreateReq where
  min_amount : ℚ
  max_amount : Option ℚ
  shipping_charge : ℚ
  is_active : Bool
deriving DecidableEq

/-- models.py `ShippingTierUpdate`. -/
structure TierUpdateReq where
  min_amount : Option ℚ
  max_amount : Option ℚ
  shipping_charge : Option ℚ
  is_active : Option Bool
deriving DecidableEq

/-- The `raise` sites of the tier write routes. -/
inductive TierWriteError
  | notFound
  | negativeMin
  | invalidMaxMin
  | negativeCharge
  | overlap (conflicting : Tier)
deriving DecidableEq

/-- shipping_tier_routes.py `create_tier`; returns the new `shipping_tiers`
collection, `fresh_id` standing for the generated `tier_id`. -/
def create_tier (tiers : List Tier) (fresh_id : String)
    (data : TierCreateReq) : Except TierWriteError (List Tier) :=
  if data.min_amount < 0 then .error .negativeMin
  else if (match data.max_amount with
           | some m => decide (m ≤ data.min_amount)
           | none => false) = true then .error .invalidMaxMin
  else if data.shipping_charge < 0 then .error .negativeCharge
  else
    match (if data.is_active then
             validate_tier_ranges tiers data.min_amount data.max_amount none
           else none) with
    | some t => .error (.overlap t)
    | none =>
      .ok (tiers ++ [⟨fresh_id, data.min_amount, data.max_amount,
                      data.shipping_charge, data.is_active⟩])

/-- The `$set` write of `update_tier` applied to the matched document. -/
def applyTierUpdate (t : Tier) (data : TierUpdateReq) : Tier :=
  { t with
    min_amount := data.min_amount.getD t.min_amount
    max_amount := match data.max_amount with
                  | some m => some m
                  | none => t.max_amount
    shipping_charge := data.shipping_charge.getD t.shipping_charge
    is_active := data.is_active.getD t.is_active }

/-- shipping_tier_routes.py `update_tier`.  Note the guard of the overlap
validation: `is_active and (data.min_amount is not None or data.max_amount
is not None)` — the validation is skipped when the request carries neither
range bound. -/
def update_tier (tiers : List Tier) (tier_id : String)
    (data : TierUpdateReq) : Except TierWriteError (List Tier) :=
  match tiers.find? (fun t => decide (t.tier_id = tier_id)) with
  | none => .error .notFound
  | some existing =>
    if (match data.min_amount with
        | some m => decide (m < 0)
        | none => false) = true then .error .negativeMin
    else if (match data.shipping_charge with
             | some c => decide (c < 0)
             | none => false) = true then .error .negativeCharge
    else
      let new_min := data.min_amount.getD existing.min_amount
      let new_max := match data.max_amount with
                     | some m => some m
                     | none => existing.max_amount
      if (match new_max with
          | some m => decide (m ≤ new_min)
          | none => false) = true then .error .invalidMaxMin
      else
        let is_active := data.is_active.getD existing.is_active
        match (if is_active && (data.min_amount.isSome || data.max_amount.isSome)
               then validate_tier_ranges tiers new_min new_max (some tier_id)
               else none) with
        | some t => .error (.overlap t)
        | none =>
          .ok (updateFirst (fun t => decide (t.tier_id = tier_id))
                (fun t => applyTierUpdate t data) tiers)

/-- shipping_tier_routes.py `toggle_tier`: flips `is_active`, re-running the
overlap validation when the flip activates the tier. -/
def toggle_tier (tiers : List Tier) (tier_id : String) :
    Except TierWriteError (List Tier) :=
  match tiers.find? (fun t => decide (t.tier_id = tier_id)) with
  | none => .error .notFound
  | some tier =>
    let new_status := !tier.is_active
    match (if new_status then
             validate_tier_ranges tiers tier.min_amount tier.max_amount
               (some tier_id)
           else none) with
    | some t => .error (.overlap t)
    | none =>
      .ok (updateFirst (fun t => decide (t.tier_id = tier_id))
            (fun t => { t with is_active := new_status }) tiers)

/-- models.py `CouponCreate`. -/
structure CouponCreateReq where
  code : String
  coupon_type : CouponType
  discount_value : ℚ
  min_order_value : ℚ
  max_discount : Option ℚ
  usage_limit : Option ℤ
  one_time_per_user : Bool
  auto_apply : Bool
  is_active : Bool
  expires_at : Option ℚ
deriving DecidableEq

/-- coupon_routes.py `CouponUpdateRequest`. -/
structure CouponUpdateReq where
  code : Option String
  coupon_type : Option CouponType
  discount_value : Option ℚ
  min_order_value : Option ℚ
  max_discount : Option ℚ
  usage_limit : Option ℤ
  one_time_per_user : Option Bool
  auto_apply : Option Bool
  is_active : Option Bool
  expires_at : Option ℚ
deriving DecidableEq

/-- The `raise` sites of the coupon admin write routes that the claims
touch. -/
inductive CouponWriteError
  | notFound
  | codeExists
  | percentOutOfRange
  | negativeDiscount
deriving DecidableEq

/-- coupon_routes.py `create_coupon`; returns the new `coupons` collection,
`fresh_id` standing for the generated `coupon_id`. -/
def create_coupon (coupons : List Coupon) (fresh_id : String)
    (data : CouponCreateReq) : Except CouponWriteError (List Coupon) :=
  let code := pyUpper (pyStrip data.code)
  if coupons.any (fun c => decide (c.code = code)) then .error .codeExists
  else if data.coupon_type = CouponType.percentage ∧
          (data.discount_value < 0 ∨ data.discount_value > 100) then
    .error .percentOutOfRange
  else if data.discount_value < 0 then .error .negativeDiscount
  else
    .ok (coupons ++ [⟨fresh_id, code, data.coupon_type, data.discount_value,
                      data.min_order_value, data.max_discount,
                      data.usage_limit, 0, data.one_time_per_user,
                      data.auto_apply, data.is_active, data.expires_at⟩])

/-- The cumulative `$set` write of `update_coupon` applied to the matched
document (every supplied field is copied into `update_data`). -/
def applyCouponUpdate (c : Coupon) (data : CouponUpdateReq) : Coupon :=
  { c with
    code := (data.code.map (fun s => pyUpper (pyStrip s))).getD c.code
    coupon_type := data.coupon_type.getD c.coupon_type
    discount_value := data.discount_value.getD c.discount_value
    min_order_value := data.min_order_value.getD c.min_order_value
    max_discount := match data.max_discount with
                    | some m => some m
                    | none => c.max_discount
    usage_limit := match data.usage_limit with
                   | some l => some l
                   | none => c.usage_limit
    one_time_per_user := data.one_time_per_user.getD c.one_time_per_user
    auto_apply := data.auto_apply.getD c.auto_apply
    is_active := data.is_active.getD c.is_active
    expires_at := match data.expires_at with
                  | some e => some e
                  | none => c.expires_at }

/-- coupon_routes.py `update_coupon`.  Note the guard of the percentage
range validation: `data.coupon_type == CouponType.PERCENTAGE` tests the
value supplied in the request (`None` when absent), not the stored
coupon's type. -/
def update_coupon (coupons : List Coupon) (coupon_id : String)
    (data : CouponUpdateReq) : Except CouponWriteError (List Coupon) :=
  match coupons.find? (fun c => decide (c.coupon_id = coupon_id)) with
  | none => .error .notFound
  | some _ =>
    if (match data.code with
        | some s => coupons.any (fun c =>
            decide (c.code = pyUpper (pyStrip s)) && decide (c.coupon_id ≠ coupon_id))
        | none => false) = true then .error .codeExists
    else if (match data.discount_value with
             | some dv => decide (data.coupon_type = some CouponType.percentage)
                 && (decide (dv < 0) || decide (dv > 100))
             | none => false) = true then .error .percentOutOfRange
    else
      .ok (updateFirst (fun c => decide (c.coupon_id = coupon_id))
            (fun c => applyCouponUpdate c data) coupons)

/-- A `db.pincodes` document, restricted to the keys `create_order` reads. -/
structure Pincode where
  pincode : String
  cod_available : Bool
deriving DecidableEq

/-- models.py `PaymentMethod`. -/
inductive PaymentMethod
  | razorpay
  | cod
deriving DecidableEq

/-- models.py `OrderItem`, restricted to the fields the pricing pipeline
reads. -/
structure OrderItem where
  product_id : String
  quantity : ℤ
  price : ℚ
  subtotal : ℚ
deriving DecidableEq

/-- models.py `OrderCreate`, restricted to the fields the pricing pipeline
reads. -/
structure OrderCreateReq where
  items : List OrderItem
  payment_method : PaymentMethod
  pincode : String
  coupon_code : Option String
  coupon_discount : ℚ
deriving DecidableEq

/-- The `raise` sites of `create_order`. -/
inductive OrderError
  | pincodeUnavailable
  | codUnavailable
deriving DecidableEq

/-- The pricing breakdown persisted on the order by `create_order`,
restricted to the pricing fields. -/
structure OrderPricing where
  subtotal : ℚ
  coupon_code : Option String
  coupon_discount : ℚ
  discounted_subtotal : ℚ
  gst_percentage : ℚ
  gst_amount : ℚ
  shipping_charge : ℚ
  total : ℚ
deriving DecidableEq

/-- order_routes.py `create_order`, pricing part (steps 1-5 and the coupon
re-validation).  `gst_settings` is the `gst_percentage` of the
`db.gst_settings` singleton when present; `now` is the current UTC time. -/
def create_order (coupons : List Coupon) (usage : List UsageRecord)
    (tiers : List Tier) (pincodes : List Pincode) (gst_settings : Option ℚ)
    (now : ℚ) (user_id : String) (order_data : OrderCreateReq) :
    Except OrderError OrderPricing :=
  match pincodes.find? (fun p => decide (p.pincode = order_data.pincode)) with
  | none => .error .pincodeUnavailable
  | some pincode_data =>
    if order_data.payment_method = PaymentMethod.cod ∧
        pincode_data.cod_available = false then
      .error .codUnavailable
    else
      let subtotal := (order_data.items.map (fun i => i.subtotal)).sum
      let resolved : Option String × ℚ :=
        match order_data.coupon_code with
        | some cc =>
          if cc ≠ "" ∧ order_data.coupon_discount > 0 then
            match coupons.find? (fun c => decide (c.code = pyUpper cc)) with
            | none => (none, 0)
            | some coupon =>
              if coupon.is_active = false then (none, 0)
              else if (check_coupon_eligibility usage now coupon user_id
                        subtotal).isSome then (none, 0)
              else (some cc, calculate_discount coupon subtotal)
          else (some cc, order_data.coupon_discount)
        | none => (none, order_data.coupon_discount)
      let coupon_code := resolved.1
      let coupon_discount := resolved.2
      let discounted_subtotal :=
        if subtotal - coupon_discount < 0 then 0 else subtotal - coupon_discount
      let gst_percentage := gst_settings.getD 18
      let gst_amount := round2 (discounted_subtotal * (gst_percentage / 100))
      let shipping_charge :=
        match find_shipping_tier tiers discounted_subtotal with
        | some t => t.shipping_charge
        | none => 0
      let total := discounted_subtotal + gst_amount + shipping_charge
      .ok ⟨subtotal, coupon_code, coupon_discount, discounted_subtotal,
           gst_percentage, gst_amount, shipping_charge, total⟩

/-! Concrete fixtures used by counterexamples and witnesses.  Field order of
`Coupon`: coupon_id, code, coupon_type, discount_value, min_order_value,
max_discount, usage_limit, used_count, one_time_per_user, auto_apply,
is_active, expires_at. -/

/-- A percentage coupon whose `max_discount` is present but equal to 0. -/
def couponMaxCapZero : Coupon :=
  ⟨"cpn-md0", "MD0", .percentage, 10, 0, some 0, none, 0, true, false, true, none⟩

/-- A coupon whose `usage_limit` is present but equal to 0, already used 5
times. -/
def couponLimitZero : Coupon :=
  ⟨"cpn-ul0", "UL0", .percentage, 10, 0, none, some 0, 5, false, false, true, none⟩

/-- A coupon with a positive `usage_limit` that is not yet exhausted. -/
def couponLimitFive : Coupon :=
  ⟨"cpn-ul5", "UL5", .percentage, 10, 0, none, some 5, 2, true, false, true, none⟩

/-- An active auto-apply percentage coupon with `discount_value = 0`. -/
def couponZeroPct : Coupon :=
  ⟨"cpn-z", "ZERO", .percentage, 0, 0, none, none, 0, true, true, true, none⟩

/-- An active auto-apply 10% coupon, minimum order 500, cap 200. -/
def couponAuto10 : Coupon :=
  ⟨"cpn-a10", "AUTO10", .percentage, 10, 500, some 200, none, 0, true, true, true, none⟩

/-- An inactive coupon with code SAVE10. -/
def couponInactive : Coupon :=
  ⟨"cpn-sv", "SAVE10", .percentage, 10, 0, none, none, 0, true, false, false, none⟩

/-- A percentage coupon with `discount_value = 10`. -/
def couponPctTen : Coupon :=
  ⟨"cpn-pc", "PCT10", .percentage, 10, 0, none, none, 0, true, false, true, none⟩

/-- A coupon update request carrying only `discount_value = 150`. -/
def bigDiscountReq : CouponUpdateReq :=
  ⟨none, none, some 150, none, none, none, none, none, none, none⟩

/-- A serviceable pincode with COD available. -/
def pinMain : Pincode := ⟨"500001", true⟩

/-- An order request with one 500-rupee item and manual code SAVE10 with a
client-claimed discount of 50. -/
def orderReqManual : OrderCreateReq :=
  ⟨[⟨"p1", 1, 500, 500⟩], .cod, "500001", some "SAVE10", 50⟩

/-- An order request with one 500-rupee item and no coupon. -/
def orderReqPlain : OrderCreateReq :=
  ⟨[⟨"p1", 1, 500, 500⟩], .cod, "500001", none, 0⟩

/-- Active shipping tier [0, 499] charging 80. -/
def tierActiveLow : Tier := ⟨"tier-A", 0, some 499, 80, true⟩

/-- Inactive (staged) shipping tier [200, 600] charging 50, overlapping
`tierActiveLow`. -/
def tierStaged : Tier := ⟨"tier-B", 200, some 600, 50, false⟩

/-- Active shipping tier [500, 999] charging 50. -/
def tierMid : Tier := ⟨"tier-mid", 500, some 999, 50, true⟩

/-- A tier update request that only sets `is_active = true`. -/
def activateOnlyReq : TierUpdateReq := ⟨none, none, none, some true⟩

/-- The pricing breakdown `create_order` produces for `orderReqPlain`
against the tier table `[tierMid]` with default GST. -/
def pricingPlain : OrderPricing := ⟨500, none, 0, 500, 18, 90, 50, 640⟩

/-! Theorems. -/

/-- Python's `if x - y < 0: x_y = 0` pattern is the clamped difference. -/
theorem ite_sub_neg_eq_max (a b : ℚ) :
    (if a - b < 0 then 0 else a - b) = max 0 (a - b) := by
  rcases lt_or_le (a - b) 0 with h | h
  · rw [if_pos h, max_eq_left (le_of_lt h)]
  · rw [if_neg (not_lt.mpr h), max_eq_right h]

/-- C6 counterexample: for a percentage coupon whose `max_discount` is
present but zero, `calculate_discount` applies no clamp (returns 100 on
subtotal 1000 at 10%), while the claim's reading (clamp whenever
`max_discount` is set and exceeded) would return 0. -/
theorem calculate_discount_zero_cap_not_clamped :
    couponMaxCapZero.max_discount = some 0 ∧
    calculate_discount couponMaxCapZero 1000 = 100 ∧
    calculate_discount_claimed couponMaxCapZero 1000 = 0 := by
  refine ⟨rfl, ?_, ?_⟩
  · norm_num [calculate_discount, couponMaxCapZero, round2, roundHalfEven]
  · norm_num [calculate_discount_claimed, couponMaxCapZero, round2, roundHalfEven]

/-- C6 (amended): whenever `max_discount` is not a present-but-zero cap,
`calculate_discount` agrees with the claimed calculator: percentage
discounts are `subtotal × discount_value / 100` clamped to a set and
exceeded `max_discount`, fixed discounts are `min(discount_value,
subtotal)`, and the result is rounded to 2 decimal places. -/
theorem calculate_discount_matches_claim_of_cap_nonzero (c : Coupon)
    (s : ℚ) (h : c.max_discount ≠ some 0) :
    calculate_discount c s = calculate_discount_claimed c s := by
  unfold calculate_discount calculate_discount_claimed
  rcases hmd : c.max_discount with _ | m
  · rfl
  · have hm : m ≠ 0 := by
      intro he
      exact h (by rw [hmd, he])
    simp [hmd, hm]

/-- C6 witness: the amended agreement evaluated on `couponAuto10`
(cap 200 ≠ 0). -/
theorem calculate_discount_matches_claim_witness :
    calculate_discount couponAuto10 3000 =
      calculate_discount_claimed couponAuto10 3000 :=
  calculate_discount_matches_claim_of_cap_nonzero couponAuto10 3000
    (by simp [couponAuto10])

/-- C10: when a percentage coupon's `max_discount` is present but equal to
0 (falsy in Python), `calculate_discount` applies no cap at all: the result
is the full rounded `subtotal × discount_value / 100`. -/
theorem calculate_discount_ignores_zero_max_discount (c : Coupon) (s : ℚ)
    (hp : c.coupon_type = CouponType.percentage)
    (hm : c.max_discount = some 0) :
    calculate_discount c s = round2 (s * c.discount_value / 100) := by
  unfold calculate_discount
  rw [hp, hm]
  simp

/-- C10 witness: the uncapped percentage evaluated on `couponMaxCapZero`. -/
theorem calculate_discount_ignores_zero_max_discount_witness :
    calculate_discount couponMaxCapZero 1000 =
      round2 (1000 * couponMaxCapZero.discount_value / 100) :=
  calculate_discount_ignores_zero_max_discount couponMaxCapZero 1000 rfl rfl

/-- C8 counterexample: on a coupon with `usage_limit` present but equal to
0 and `used_count = 5`, the source check reports eligible (Python's
`if usage_limit and ...` skips a falsy limit) while the claim's reading of
check 3 (`used_count < usage_limit` whenever `usage_limit` is set) reports
the usage limit reached. -/
theorem eligibility_zero_usage_limit_divergence :
    couponLimitZero.usage_limit = some 0 ∧
    couponLimitZero.used_count = 5 ∧
    check_coupon_eligibility [] 0 couponLimitZero "u1" 100 = none ∧
    check_coupon_eligibility_claimed [] 0 couponLimitZero "u1" 100 =
      some EligFail.usageLimitReached := by
  refine ⟨rfl, rfl, ?_, ?_⟩
  · norm_num [check_coupon_eligibility, couponLimitZero]
  · norm_num [check_coupon_eligibility_claimed, couponLimitZero]

/-- C8 (amended): for every coupon whose `usage_limit` is not a
present-but-zero limit, the source eligibility check agrees everywhere with
the claimed five-check sequence (active, unexpired, usage limit, one per
user, minimum order — in this order, short-circuiting, with the minimum
surfaced on failure of check 5). -/
theorem eligibility_matches_claim_of_limit_nonzero (usage : List UsageRecord)
    (now : ℚ) (c : Coupon) (user_id : String) (s : ℚ)
    (h : c.usage_limit ≠ some 0) :
    check_coupon_eligibility usage now c user_id s =
      check_coupon_eligibility_claimed usage now c user_id s := by
  unfold check_coupon_eligibility check_coupon_eligibility_claimed
  rcases hul : c.usage_limit with _ | l
  · rfl
  · have hl : l ≠ 0 := by
      intro he
      exact h (by rw [hul, he])
    simp [hul, hl]

/-- C8 witness: the amended agreement evaluated on `couponLimitFive`
(limit 5 ≠ 0). -/
theorem eligibility_matches_claim_witness :
    check_coupon_eligibility [] 0 couponLimitFive "u1" 100 =
      check_coupon_eligibility_claimed [] 0 couponLimitFive "u1" 100 :=
  eligibility_matches_claim_of_limit_nonzero [] 0 couponLimitFive "u1" 100
    (by simp [couponLimitFive])

/-- The three-case per-tier test of `validate_tier_ranges` coincides with
the reference overlap relation on well-formed ranges (min ≤ max whenever
max is present). -/
theorem tierPairConflict_eq_rangesOverlapB (new_min : ℚ) (new_max : Option ℚ)
    (tier_min : ℚ) (tier_max : Option ℚ)
    (hc : ∀ nm, new_max = some nm → new_min ≤ nm)
    (ht : ∀ tm, tier_max = some tm → tier_min ≤ tm) :
    tierPairConflict new_min new_max tier_min tier_max =
      rangesOverlapB new_min new_max tier_min tier_max := by
  apply Bool.eq_iff_iff.mpr
  rcases new_max with _ | nm <;> rcases tier_max with _ | tm <;>
    simp only [tierPairConflict, rangesOverlapB, Bool.or_eq_true,
      Bool.and_eq_true, Bool.false_eq_true, decide_eq_true_eq, ge_iff_le,
      or_false, false_or, and_true, true_and]
  · exact iff_of_true (le_total tier_min new_min) trivial
  · constructor
    · rintro (⟨h1, h2⟩ | h3)
      · exact h2
      · exact le_trans h3 (ht tm rfl)
    · intro h
      rcases le_total tier_min new_min with h1 | h1
      · exact Or.inl ⟨h1, h⟩
      · exact Or.inr h1
  · constructor
    · rintro (h1 | h2)
      · exact le_trans h1 (hc nm rfl)
      · exact h2
    · exact fun h => Or.inr h
  · constructor
    · rintro ((⟨h1, h2⟩ | ⟨h3, h4⟩) | ⟨h5, h6⟩)
      · exact ⟨h2, le_trans h1 (hc nm rfl)⟩
      · exact ⟨le_trans (hc nm rfl) h4, h3⟩
      · exact ⟨le_trans h5 (ht tm rfl), le_trans (ht tm rfl) h6⟩
    · rintro ⟨h1, h2⟩
      rcases le_total tier_min new_min with h3 | h3
      · exact Or.inl (Or.inl ⟨h3, h1⟩)
      · rcases le_total nm tm with h4 | h4
        · exact Or.inl (Or.inr ⟨h2, h4⟩)
        · exact Or.inr ⟨h3, h4⟩

/-- C4: on well-formed ranges, `validate_tier_ranges` reports an overlap
iff some existing active tier other than `exclude_tier_id` overlaps the
candidate range in the sense of the reference relation (`a_min ≤ b_max`
and `b_min ≤ a_max`, absent max read as +∞). -/
theorem validate_tier_ranges_iff_overlap (tiers : List Tier) (new_min : ℚ)
    (new_max : Option ℚ) (exclude_tier_id : Option String)
    (hc : ∀ nm, new_max = some nm → new_min ≤ nm)
    (ht : ∀ t ∈ tiers, ∀ tm, t.max_amount = some tm → t.min_amount ≤ tm) :
    (validate_tier_ranges tiers new_min new_max exclude_tier_id).isSome =
        true ↔
      ∃ t ∈ tiers, t.is_active = true ∧
        (∀ e, exclude_tier_id = some e → t.tier_id ≠ e) ∧
        rangesOverlapB new_min new_max t.min_amount t.max_amount = true := by
  unfold validate_tier_ranges
  rw [List.find?_isSome]
  constructor
  · rintro ⟨t, htmem, hconf⟩
    rw [List.mem_filter] at htmem
    obtain ⟨hmem, hflt⟩ := htmem
    rw [Bool.and_eq_true] at hflt
    rw [tierPairConflict_eq_rangesOverlapB _ _ _ _ hc (ht t hmem)] at hconf
    refine ⟨t, hmem, hflt.1, ?_, hconf⟩
    intro e he
    rw [he] at hflt
    simpa using hflt.2
  · rintro ⟨t, hmem, hact, hexc, hover⟩
    refine ⟨t, ?_, ?_⟩
    · rw [List.mem_filter]
      refine ⟨hmem, ?_⟩
      rw [Bool.and_eq_true]
      refine ⟨hact, ?_⟩
      rcases hexc2 : exclude_tier_id with _ | e
      · rfl
      · simpa using hexc e hexc2
    · rw [tierPairConflict_eq_rangesOverlapB _ _ _ _ hc (ht t hmem)]
      exact hover

/-- C4 witness: the equivalence evaluated on the tier table
`[tierActiveLow]` and the candidate range [200, 600]. -/
theorem validate_tier_ranges_iff_overlap_witness :
    (validate_tier_ranges [tierActiveLow] 200 (some 600) none).isSome =
        true ↔
      ∃ t ∈ [tierActiveLow], t.is_active = true ∧
        (∀ e, (none : Option String) = some e → t.tier_id ≠ e) ∧
        rangesOverlapB 200 (some 600) t.min_amount t.max_amount = true :=
  validate_tier_ranges_iff_overlap [tierActiveLow] 200 (some 600) none
    (by
      intro nm h
      injection h with h
      rw [← h]
      norm_num)
    (by
      intro t htm tm h
      simp only [List.mem_singleton] at htm
      subst htm
      injection h with h
      rw [← h]
      norm_num [tierActiveLow])

/-- C2 (code bug): an update request carrying only `discount_value = 150`
against a stored PERCENTAGE coupon passes `update_coupon`'s validation
(which tests the request's `coupon_type`, absent here) and persists a
percentage coupon with `discount_value = 150 > 100`. -/
theorem update_coupon_skips_percent_range_check :
    update_coupon [couponPctTen] "cpn-pc" bigDiscountReq =
      Except.ok [⟨"cpn-pc", "PCT10", .percentage, 150, 0, none, none, 0,
        true, false, true, none⟩] ∧
    couponPctTen.coupon_type = CouponType.percentage ∧ (100 : ℚ) < 150 := by
  refine ⟨?_, rfl, by norm_num⟩
  norm_num [update_coupon, couponPctTen, bigDiscountReq, updateFirst,
    applyCouponUpdate, List.find?,
    show (none : Option CouponType) ≠ some CouponType.percentage from
      by decide]

/-- C3 (code bug): updating the staged tier [200, 600] with a request that
only sets `is_active = true` succeeds without running the overlap
validation, leaving two active tiers ([0, 499] and [200, 600]) whose
ranges overlap. -/
theorem update_tier_activation_skips_overlap_check :
    update_tier [tierActiveLow, tierStaged] "tier-B" activateOnlyReq =
      Except.ok [tierActiveLow, ⟨"tier-B", 200, some 600, 50, true⟩] ∧
    tierActiveLow.is_active = true ∧
    rangesOverlapB 200 (some 600) tierActiveLow.min_amount
      tierActiveLow.max_amount = true ∧
    validate_tier_ranges [tierActiveLow, tierStaged] 200 (some 600)
      (some "tier-B") = some tierActiveLow := by
  refine ⟨?_, rfl, ?_, ?_⟩
  · norm_num [update_tier, tierActiveLow, tierStaged, activateOnlyReq,
      updateFirst, applyTierUpdate, List.find?,
      show ("tier-A" : String) ≠ "tier-B" from by decide]
  · norm_num [rangesOverlapB, tierActiveLow]
  · norm_num [validate_tier_ranges, tierPairConflict, tierActiveLow,
      tierStaged, List.find?, List.filter,
      show ("tier-A" : String) ≠ "tier-B" from by decide]

/-- C7: a shipping tier matches an amount iff it is active,
`min_amount ≤ amount` (inclusive) and `max_amount` is absent or
`amount ≤ max_amount` (inclusive); and when no tier in the table matches,
`calculate_shipping` succeeds with a zero shipping charge instead of
failing. -/
theorem tier_lookup_spec (t : Tier) (a : ℚ) (tiers : List Tier) (s : ℚ) :
    (tierMatches t a = true ↔
      t.is_active = true ∧ t.min_amount ≤ a ∧
        ∀ m, t.max_amount = some m → a ≤ m) ∧
    (0 ≤ s → (∀ u ∈ tiers, tierMatches u s = false) →
      calculate_shipping tiers s = Except.ok ⟨s, 0, false⟩) := by
  constructor
  · unfold tierMatches
    rcases hmx : t.max_amount with _ | m
    · simp
    · simp [and_assoc]
  · intro hs hnone
    unfold calculate_shipping
    rw [if_neg (not_lt.mpr hs)]
    have hfind : find_shipping_tier tiers s = none := by
      unfold find_shipping_tier
      rw [List.find?_eq_none]
      intro u hu
      rw [hnone u hu]
      simp
    rw [hfind]

/-- C7 witness: the match condition evaluated on `tierMid` at amount 700,
and the zero-charge fallback evaluated on the table `[tierActiveLow]` at
amount 600 (not covered by any tier). -/
theorem tier_lookup_spec_witness :
    (tierMatches tierMid 700 = true ↔
      tierMid.is_active = true ∧ tierMid.min_amount ≤ 700 ∧
        ∀ m, tierMid.max_amount = some m → (700 : ℚ) ≤ m) ∧
    calculate_shipping [tierActiveLow] 600 = Except.ok ⟨600, 0, false⟩ :=
  ⟨(tier_lookup_spec tierMid 700 [tierActiveLow] 600).1,
   (tier_lookup_spec tierMid 700 [tierActiveLow] 600).2 (by norm_num)
     (by
       intro u hu
       simp only [List.mem_singleton] at hu
       subst hu
       norm_num [tierMatches, tierActiveLow])⟩

/-- C5: every pricing breakdown `create_order` successfully produces
satisfies `discounted_subtotal = max(0, subtotal − coupon_discount)`,
`gst_amount = round2(discounted_subtotal × gst_percentage / 100)` (GST on
the post-discount amount), and
`total = discounted_subtotal + gst_amount + shipping_charge`. -/
theorem create_order_total_formula (coupons : List Coupon)
    (usage : List UsageRecord) (tiers : List Tier) (pincodes : List Pincode)
    (gst_settings : Option ℚ) (now : ℚ) (user_id : String)
    (order_data : OrderCreateReq) (p : OrderPricing)
    (h : create_order coupons usage tiers pincodes gst_settings now user_id
          order_data = Except.ok p) :
    p.discounted_subtotal = max 0 (p.subtotal - p.coupon_discount) ∧
    p.gst_amount = round2 (p.discounted_subtotal * p.gst_percentage / 100) ∧
    p.total = p.discounted_subtotal + p.gst_amount + p.shipping_charge := by
  simp only [create_order] at h
  split at h
  · exact absurd h (by simp)
  · split at h
    · exact absurd h (by simp)
    · rw [Except.ok.injEq] at h
      subst h
      refine ⟨?_, ?_, rfl⟩
      · exact ite_sub_neg_eq_max _ _
      · rw [mul_div_assoc]

/-- C5 witness: the three pricing equations evaluated on the breakdown of
`orderReqPlain` against the tier table `[tierMid]` with default GST. -/
theorem create_order_total_formula_witness :
    pricingPlain.discounted_subtotal =
      max 0 (pricingPlain.subtotal - pricingPlain.coupon_discount) ∧
    pricingPlain.gst_amount =
      round2 (pricingPlain.discounted_subtotal *
        pricingPlain.gst_percentage / 100) ∧
    pricingPlain.total = pricingPlain.discounted_subtotal +
      pricingPlain.gst_amount + pricingPlain.shipping_charge :=
  create_order_total_formula [] [] [tierMid] [pinMain] none 0 "u1"
    orderReqPlain pricingPlain
    (by
      norm_num [create_order, pinMain, orderReqPlain, pricingPlain, tierMid,
        find_shipping_tier, tierMatches, round2, roundHalfEven, List.find?])

/-- C1 counterexample: the manual code SAVE10 fails eligibility (the coupon
is inactive), yet `create_order` succeeds and creates the order with no
coupon and zero discount — no rejected-coupon error reaches the caller. -/
theorem create_order_silently_drops_rejected_manual_coupon :
    check_coupon_eligibility [] 0 couponInactive "u1" 500 =
      some EligFail.notActive ∧
    orderReqManual.coupon_code = some "SAVE10" ∧
    create_order [couponInactive] [] [] [pinMain] none 0 "u1"
      orderReqManual = Except.ok ⟨500, none, 0, 500, 18, 90, 0, 590⟩ := by
  refine ⟨?_, rfl, ?_⟩
  · norm_num [check_coupon_eligibility, couponInactive]
  · norm_num [create_order, pinMain, orderReqManual, couponInactive,
      check_coupon_eligibility, calculate_discount, find_shipping_tier,
      tierMatches, round2, roundHalfEven, List.find?,
      show pyUpper "SAVE10" = "SAVE10" from by decide,
      show ("SAVE10" : String) ≠ "" from by decide]

/-- C1 (amended): when the client supplies a non-empty manual coupon code
with a positive claimed discount and the re-validation fails (the code is
unknown, or the coupon is inactive or ineligible), `create_order` does not
report an error: it succeeds and persists the order with `coupon_code =
none` and `coupon_discount = 0` (given that the pincode checks pass). -/
theorem create_order_rejected_manual_coupon_fallback (coupons : List Coupon)
    (usage : List UsageRecord) (tiers : List Tier) (pincodes : List Pincode)
    (gst_settings : Option ℚ) (now : ℚ) (user_id : String)
    (order_data : OrderCreateReq) (cc : String) (pd : Pincode)
    (h1 : order_data.coupon_code = some cc) (h2 : cc ≠ "")
    (h3 : order_data.coupon_discount > 0)
    (h4 : pincodes.find? (fun p => decide (p.pincode = order_data.pincode)) =
      some pd)
    (h5 : ¬(order_data.payment_method = PaymentMethod.cod ∧
      pd.cod_available = false))
    (h6 : ∀ coupon,
      coupons.find? (fun c => decide (c.code = pyUpper cc)) = some coupon →
      coupon.is_active = false ∨
        (check_coupon_eligibility usage now coupon user_id
          ((order_data.items.map (fun i => i.subtotal)).sum)).isSome = true) :
    ∃ p, create_order coupons usage tiers pincodes gst_settings now user_id
        order_data = Except.ok p ∧
      p.coupon_code = none ∧ p.coupon_discount = 0 := by
  simp only [create_order, h1, h4, if_neg h5]
  rw [if_pos ⟨h2, h3⟩]
  rcases hfind : coupons.find? (fun c => decide (c.code = pyUpper cc)) with
    _ | coupon
  · simp only [hfind]
    exact ⟨_, rfl, rfl, rfl⟩
  · simp only [hfind]
    rcases h6 coupon hfind with hina | helig
    · rw [if_pos hina]
      exact ⟨_, rfl, rfl, rfl⟩
    · by_cases hact : coupon.is_active = false
      · rw [if_pos hact]
        exact ⟨_, rfl, rfl, rfl⟩
      · rw [if_neg hact, if_pos helig]
        exact ⟨_, rfl, rfl, rfl⟩

/-- C1 witness: the silent fallback evaluated on the concrete SAVE10
scenario. -/
theorem create_order_rejected_manual_coupon_fallback_witness :
    ∃ p, create_order [couponInactive] [] [] [pinMain] none 0 "u1"
        orderReqManual = Except.ok p ∧
      p.coupon_code = none ∧ p.coupon_discount = 0 :=
  create_order_rejected_manual_coupon_fallback [couponInactive] [] []
    [pinMain] none 0 "u1" orderReqManual "SAVE10" pinMain rfl
    (by decide) (by norm_num [orderReqManual])
    (by
      norm_num [pinMain, orderReqManual, List.find?])
    (by simp [pinMain])
    (by
      intro coupon h
      simp only [List.find?,
        show pyUpper "SAVE10" = "SAVE10" from by decide,
        show decide (couponInactive.code = "SAVE10") = true from by decide,
        cond] at h
      injection h with h
      subst h
      left
      rfl)

/-- C9 counterexample: `couponZeroPct` is an active auto-apply coupon with
`min_order_value ≤ 100` that passes the full eligibility check, yet
`get_best_auto_coupon` returns none on subtotal 100 (its discount, 0, never
beats the accumulator initialised to 0). -/
theorem auto_apply_zero_discount_returns_none :
    couponZeroPct.is_active = true ∧
    couponZeroPct.auto_apply = true ∧
    couponZeroPct.min_order_value ≤ 100 ∧
    check_coupon_eligibility [] 0 couponZeroPct "u1" 100 = none ∧
    get_best_auto_coupon [couponZeroPct] [] 0 "u1" 100 = none := by
  refine ⟨rfl, rfl, by norm_num [couponZeroPct], ?_, ?_⟩
  · norm_num [check_coupon_eligibility, couponZeroPct]
  · norm_num [get_best_auto_coupon, auto_candidates, bestAutoLoop, eligibleB,
      check_coupon_eligibility, calculate_discount, round2, roundHalfEven,
      couponZeroPct]

/-- Invariant of the best-coupon accumulator loop: the accumulator's
discount never decreases, every eligible coupon of the scanned list is
bounded by the final discount, and the loop either returns the initial
accumulator unchanged or the first eligible coupon realising a discount
that strictly beats both the initial accumulator and every eligible coupon
before it. -/
theorem bestAutoLoop_spec (usage : List UsageRecord) (now : ℚ)
    (user_id : String) (subtotal : ℚ) :
    ∀ (l : List Coupon) (acc : Option Coupon × ℚ),
      acc.2 ≤ (bestAutoLoop usage now user_id subtotal l acc).2 ∧
      (∀ c ∈ l, eligibleB usage now c user_id subtotal = true →
        calculate_discount c subtotal ≤
          (bestAutoLoop usage now user_id subtotal l acc).2) ∧
      (bestAutoLoop usage now user_id subtotal l acc = acc ∨
        ∃ c l1 l2, l = l1 ++ c :: l2 ∧
          bestAutoLoop usage now user_id subtotal l acc =
            (some c, calculate_discount c subtotal) ∧
          eligibleB usage now c user_id subtotal = true ∧
          acc.2 < calculate_discount c subtotal ∧
          ∀ p ∈ l1, eligibleB usage now p user_id subtotal = true →
            calculate_discount p subtotal < calculate_discount c subtotal)
  | [], acc => by
    refine ⟨le_refl _, ?_, Or.inl rfl⟩
    intro c hc
    exact absurd hc (List.not_mem_nil c)
  | c :: rest, acc => by
    by_cases he : eligibleB usage now c user_id subtotal = true
    · by_cases hgt : calculate_discount c subtotal > acc.2
      · have hstep : bestAutoLoop usage now user_id subtotal (c :: rest) acc =
            bestAutoLoop usage now user_id subtotal rest
              (some c, calculate_discount c subtotal) := by
          simp only [bestAutoLoop, if_pos he, if_pos hgt]
        obtain ⟨ih1, ih2, ih3⟩ := bestAutoLoop_spec usage now user_id subtotal
          rest (some c, calculate_discount c subtotal)
        rw [hstep]
        refine ⟨le_trans (le_of_lt hgt) ih1, ?_, ?_⟩
        · intro x hx hex
          rcases List.mem_cons.mp hx with hxc | hx2
          · rw [hxc]
            exact ih1
          · exact ih2 x hx2 hex
        · rcases ih3 with heq | ⟨c2, l1, l2, hsplit, hres, he2, hgt2, hl1⟩
          · right
            exact ⟨c, [], rest, rfl, heq, he, hgt, by simp⟩
          · right
            refine ⟨c2, c :: l1, l2, by simp [hsplit], hres, he2,
              lt_trans hgt hgt2, ?_⟩
            intro p hp hep
            rcases List.mem_cons.mp hp with hpc | hp2
            · rw [hpc]
              exact hgt2
            · exact hl1 p hp2 hep
      · have hstep : bestAutoLoop usage now user_id subtotal (c :: rest) acc =
            bestAutoLoop usage now user_id subtotal rest acc := by
          simp only [bestAutoLoop, if_pos he, if_neg hgt]
        obtain ⟨ih1, ih2, ih3⟩ :=
          bestAutoLoop_spec usage now user_id subtotal rest acc
        rw [hstep]
        refine ⟨ih1, ?_, ?_⟩
        · intro x hx hex
          rcases List.mem_cons.mp hx with hxc | hx2
          · rw [hxc]
            exact le_trans (not_lt.mp hgt) ih1
          · exact ih2 x hx2 hex
        · rcases ih3 with heq | ⟨c2, l1, l2, hsplit, hres, he2, hgt2, hl1⟩
          · exact Or.inl heq
          · right
            refine ⟨c2, c :: l1, l2, by simp [hsplit], hres, he2, hgt2, ?_⟩
            intro p hp hep
            rcases List.mem_cons.mp hp with hpc | hp2
            · rw [hpc]
              exact lt_of_le_of_lt (not_lt.mp hgt) hgt2
            · exact hl1 p hp2 hep
    · have hstep : bestAutoLoop usage now user_id subtotal (c :: rest) acc =
          bestAutoLoop usage now user_id subtotal rest acc := by
        simp only [bestAutoLoop, if_neg he]
      obtain ⟨ih1, ih2, ih3⟩ :=
        bestAutoLoop_spec usage now user_id subtotal rest acc
      rw [hstep]
      refine ⟨ih1, ?_, ?_⟩
      · intro x hx hex
        rcases List.mem_cons.mp hx with hxc | hx2
        · rw [hxc] at hex
          exact absurd hex he
        · exact ih2 x hx2 hex
      · rcases ih3 with heq | ⟨c2, l1, l2, hsplit, hres, he2, hgt2, hl1⟩
        · exact Or.inl heq
        · right
          refine ⟨c2, c :: l1, l2, by simp [hsplit], hres, he2, hgt2, ?_⟩
          intro p hp hep
          rcases List.mem_cons.mp hp with hpc | hp2
          · rw [hpc] at hep
            exact absurd hep he
          · exact hl1 p hp2 hep

/-- C9 (amended): `get_best_auto_coupon` returns none on `subtotal ≤ 0`;
when it returns a coupon, that coupon is eligible, realises a strictly
positive discount, and is the first candidate (in candidate order)
realising the maximum discount — every eligible earlier candidate is
strictly smaller and every eligible later candidate is at most equal; and
whenever some eligible candidate realises a strictly positive discount on
a positive subtotal, a coupon is returned. -/
theorem get_best_auto_coupon_spec (coupons : List Coupon)
    (usage : List UsageRecord) (now : ℚ) (user_id : String) (subtotal : ℚ) :
    (subtotal ≤ 0 →
      get_best_auto_coupon coupons usage now user_id subtotal = none) ∧
    (∀ c, get_best_auto_coupon coupons usage now user_id subtotal = some c →
      eligibleB usage now c user_id subtotal = true ∧
      0 < calculate_discount c subtotal ∧
      ∃ l1 l2, auto_candidates coupons subtotal = l1 ++ c :: l2 ∧
        (∀ p ∈ l1, eligibleB usage now p user_id subtotal = true →
          calculate_discount p subtotal < calculate_discount c subtotal) ∧
        (∀ q ∈ l2, eligibleB usage now q user_id subtotal = true →
          calculate_discount q subtotal ≤ calculate_discount c subtotal)) ∧
    (0 < subtotal →
      ∀ c ∈ auto_candidates coupons subtotal,
        eligibleB usage now c user_id subtotal = true →
        0 < calculate_discount c subtotal →
        (get_best_auto_coupon coupons usage now user_id subtotal).isSome =
          true) := by
  refine ⟨?_, ?_, ?_⟩
  · intro hs
    unfold get_best_auto_coupon
    rw [if_pos hs]
  · intro c hc
    unfold get_best_auto_coupon at hc
    by_cases hs : subtotal ≤ 0
    · rw [if_pos hs] at hc
      exact absurd hc (by simp)
    · rw [if_neg hs] at hc
      obtain ⟨hmono, hbound, hcase⟩ := bestAutoLoop_spec usage now user_id
        subtotal (auto_candidates coupons subtotal) (none, 0)
      rcases hcase with heq | ⟨c2, l1, l2, hsplit, hres, he2, hgt2, hl1⟩
      · rw [heq] at hc
        exact absurd hc (by simp)
      · rw [hres] at hc
        rw [Option.some.injEq] at hc
        subst hc
        refine ⟨he2, hgt2, l1, l2, hsplit, hl1, ?_⟩
        intro q hq heq2
        have hqmem : q ∈ auto_candidates coupons subtotal := by
          rw [hsplit]
          exact List.mem_append_right l1 (List.mem_cons_of_mem _ hq)
        have := hbound q hqmem heq2
        rw [hres] at this
        exact this
  · intro hs c hcmem helig hdisc
    unfold get_best_auto_coupon
    rw [if_neg (not_le.mpr hs)]
    obtain ⟨hmono, hbound, hcase⟩ := bestAutoLoop_spec usage now user_id
      subtotal (auto_candidates coupons subtotal) (none, 0)
    rcases hcase with heq | ⟨c2, l1, l2, hsplit, hres, he2, hgt2, hl1⟩
    · have hle := hbound c hcmem helig
      rw [heq] at hle
      exact absurd (lt_of_lt_of_le hdisc hle) (by norm_num)
    · rw [hres]
      rfl

/-- C9 witness: the spec applied on the candidate table `[couponAuto10]`:
none at subtotal 0, and the full characterisation of the returned coupon
at subtotal 700. -/
theorem get_best_auto_coupon_spec_witness :
    get_best_auto_coupon [couponAuto10] [] 0 "u1" 0 = none ∧
    (eligibleB [] 0 couponAuto10 "u1" 700 = true ∧
      0 < calculate_discount couponAuto10 700 ∧
      ∃ l1 l2, auto_candidates [couponAuto10] 700 =
          l1 ++ couponAuto10 :: l2 ∧
        (∀ p ∈ l1, eligibleB [] 0 p "u1" 700 = true →
          calculate_discount p 700 < calculate_discount couponAuto10 700) ∧
        (∀ q ∈ l2, eligibleB [] 0 q "u1" 700 = true →
          calculate_discount q 700 ≤ calculate_discount couponAuto10 700)) :=
  ⟨(get_best_auto_coupon_spec [couponAuto10] [] 0 "u1" 0).1 (le_refl 0),
   (get_best_auto_coupon_spec [couponAuto10] [] 0 "u1" 700).2.1 couponAuto10
     (by
       norm_num [get_best_auto_coupon, auto_candidates, bestAutoLoop,
         eligibleB, check_coupon_eligibility, calculate_discount, round2,
         roundHalfEven, couponAuto10])⟩

end Driedit
